import Mathlib

/-!
Verification of the myBuddy280 ROS 2 wrapper node
(`mybuddy280_driver/mybuddy280_ros2_wrapper.py`).

The node has three behaviours of interest:

* `send_joint_angles_callback` — validates a batch move request and forwards
  each valid entry to the device over `self.mc.send_angle`, stopping at the
  first invalid entry;
* `joint_state_callback` — the periodic telemetry tick, which performs three
  device reads and publishes one combined message;
* `__init__` — the startup path, whose `except serial.SerialException`
  handler runs while the node is not yet attached to an executor.

Floats are modelled as `Rat` (the validator only compares against the exact
decimal literals -175.0 and 175.0), Python ints as `Int`.  A Python exception
escaping a callback is modelled as `Option.none` / `Except.error`.  Each
function also returns the ordered trace of Device Link calls it issued, so
that "exactly N `send_angle` calls occur" is a statement about the model.
-/

namespace MyBuddy280

/-- Result string from line 121 of the wrapper: wrong part id. -/
def wrongIdMsg : String := "Error: Wrong ID of robot part, use only L, R or W"

/-- Result string from line 138 of the wrapper: joint number not in 1..6. -/
def wrongJointMsg : String := "Error: Wrong joint number (only 1 .. 6)"

/-- Result string from line 135 of the wrapper: angle outside [-175, 175]. -/
def angleRangeMsg : String := "Error: Angle is out of range (-175 .. 175)"

/-- Result string from line 132 of the wrapper: speed outside [1, 100]. -/
def speedRangeMsg : String := "Error: Speed is out of range (1 .. 100)"

/-- Result string from line 141 of the wrapper: every entry applied. -/
def successMsg : String := "Success: Angles sent"

/-- One `self.mc.send_angle(part_id, joint_number, angle, speed)` call
issued to the Device Link (line 129 of the wrapper). -/
structure SendAngleCall where
  group : Nat
  joint : Int
  angle : Rat
  speed : Int
deriving DecidableEq, Repr

/-- The `MyBuddy280SendAngles` service request: a one-character part code and
three parallel arrays (`joint_number[]`, `angle[]`, `speed[]`). -/
structure SendAnglesRequest where
  part_id : String
  joint_number : List Int
  angle : List Rat
  speed : List Int

/-- Line 126: `joint_number in [1, 2, 3, 4, 5, 6]`. -/
def jointOk (j : Int) : Bool :=
  j == 1 || j == 2 || j == 3 || j == 4 || j == 5 || j == 6

/-- Line 127: `-175.0 <= request.angle[i] <= 175.0`. -/
def angleOk (a : Rat) : Bool :=
  -175 ≤ a && a ≤ 175

/-- Line 128: `1 <= request.speed[i] <= 100`. -/
def speedOk (s : Int) : Bool :=
  1 ≤ s && s ≤ 100

/-- The `for joint_number in request.joint_number:` loop of lines 124-142.
`i` is the cursor variable of line 124; `angs[i]?`/`spds[i]?` model the
Python index accesses `request.angle[i]` / `request.speed[i]`, and a `none`
result models the `IndexError` that escapes the callback when the parallel
array is too short.  The returned list is the ordered trace of `send_angle`
calls issued to the Device Link. -/
def dispatchLoop (gid : Nat) (js : List Int) (angs : List Rat) (spds : List Int)
    (i : Nat) : Option (String × List SendAngleCall) :=
  match js with
  | [] => some (successMsg, [])
  | j :: rest =>
    if jointOk j then
      match angs[i]? with
      | none => none
      | some a =>
        if angleOk a then
          match spds[i]? with
          | none => none
          | some s =>
            if speedOk s then
              match dispatchLoop gid rest angs spds (i + 1) with
              | none => none
              | some (msg, calls) => some (msg, ⟨gid, j, a, s⟩ :: calls)
            else some (speedRangeMsg, [])
        else some (angleRangeMsg, [])
    else some (wrongJointMsg, [])

/-- `send_joint_angles_callback` (lines 103-142): resolve the part code
(lines 114-122), then run the validation loop.  The result is the response
string together with the trace of Device Link calls; `none` models an
uncaught Python exception. -/
def send_joint_angles_callback (req : SendAnglesRequest) :
    Option (String × List SendAngleCall) :=
  if req.part_id = "L" then dispatchLoop 1 req.joint_number req.angle req.speed 0
  else if req.part_id = "R" then dispatchLoop 2 req.joint_number req.angle req.speed 0
  else if req.part_id = "W" then dispatchLoop 3 req.joint_number req.angle req.speed 0
  else some (wrongIdMsg, [])

/-- Head-consuming reformulation of `dispatchLoop`: instead of indexing into
the full `angle`/`speed` arrays at cursor `i`, it consumes them in lockstep
with `joint_number`.  `dispatchLoop_eq_consume` proves the two agree. -/
def consume (gid : Nat) : List Int → List Rat → List Int →
    Option (String × List SendAngleCall)
  | [], _, _ => some (successMsg, [])
  | j :: rest, angs, spds =>
    if jointOk j then
      match angs with
      | [] => none
      | a :: angs' =>
        if angleOk a then
          match spds with
          | [] => none
          | s :: spds' =>
            if speedOk s then
              match consume gid rest angs' spds' with
              | none => none
              | some (msg, calls) => some (msg, ⟨gid, j, a, s⟩ :: calls)
            else some (speedRangeMsg, [])
        else some (angleRangeMsg, [])
    else some (wrongJointMsg, [])

theorem dispatchLoop_eq_consume (gid : Nat) :
    ∀ (js : List Int) (angs : List Rat) (spds : List Int) (i : Nat),
      dispatchLoop gid js angs spds i = consume gid js (angs.drop i) (spds.drop i) := by
  intro js
  induction js with
  | nil => intro angs spds i; rfl
  | cons j rest ih =>
    intro angs spds i
    simp only [dispatchLoop, consume]
    by_cases hj : jointOk j
    · simp only [hj, if_true]
      have hag : angs[i]? = (angs.drop i).head? := by
        rw [List.head?_eq_getElem?, List.getElem?_drop, Nat.add_zero]
      have hsg : spds[i]? = (spds.drop i).head? := by
        rw [List.head?_eq_getElem?, List.getElem?_drop, Nat.add_zero]
      rcases hda : angs.drop i with _ | ⟨a, angsTail⟩
      · rw [hag, hda]; rfl
      · rw [hag, hda]
        simp only [List.head?_cons]
        by_cases ha : angleOk a
        · simp only [ha, if_true]
          rcases hds : spds.drop i with _ | ⟨s, spdsTail⟩
          · rw [hsg, hds]; rfl
          · rw [hsg, hds]
            simp only [List.head?_cons]
            by_cases hs : speedOk s
            · simp only [hs, if_true]
              have hta : angs.drop (i + 1) = angsTail := by
                rw [← List.tail_drop, hda, List.tail_cons]
              have hts : spds.drop (i + 1) = spdsTail := by
                rw [← List.tail_drop, hds, List.tail_cons]
              rw [ih angs spds (i + 1), hta, hts]
            · simp [hs]
        · simp [ha]
    · simp [hj]

/-- An entry passes all three checks of lines 126-128. -/
def entryOk (j : Int) (a : Rat) (s : Int) : Bool :=
  jointOk j && angleOk a && speedOk s

/-- The message produced for an invalid entry, checks applied in the order of
the code: joint number (line 126), then angle (line 127), then speed
(line 128). -/
def failMsg (j : Int) (a : Rat) (_s : Int) : String :=
  if !jointOk j then wrongJointMsg
  else if !angleOk a then angleRangeMsg
  else speedRangeMsg

/-- The `send_angle` trace produced by a run of valid entries: one call per
entry, in order, with the resolved group id and the entry's values. -/
def mkCalls (gid : Nat) : List Int → List Rat → List Int → List SendAngleCall
  | j :: rest, a :: angs', s :: spds' => ⟨gid, j, a, s⟩ :: mkCalls gid rest angs' spds'
  | _, _, _ => []

/-- Every entry of the three parallel lists passes all three checks. -/
def allOk : List Int → List Rat → List Int → Bool
  | j :: rest, a :: angs', s :: spds' => entryOk j a s && allOk rest angs' spds'
  | _, _, _ => true

theorem mkCalls_length (gid : Nat) :
    ∀ (js : List Int) (angs : List Rat) (spds : List Int),
      js.length = angs.length → js.length = spds.length →
      (mkCalls gid js angs spds).length = js.length := by
  intro js
  induction js with
  | nil => intro angs spds _ _; rfl
  | cons j rest ih =>
    intro angs spds ha hs
    rcases angs with _ | ⟨a, angs'⟩
    · simp at ha
    · rcases spds with _ | ⟨s, spds'⟩
      · simp at hs
      · simp only [mkCalls, List.length_cons]
        rw [ih angs' spds' (by simpa using ha) (by simpa using hs)]

theorem consume_all_valid (gid : Nat) :
    ∀ (js : List Int) (angs : List Rat) (spds : List Int),
      js.length = angs.length → js.length = spds.length →
      allOk js angs spds = true →
      consume gid js angs spds = some (successMsg, mkCalls gid js angs spds) := by
  intro js
  induction js with
  | nil => intro angs spds _ _ _; rfl
  | cons j rest ih =>
    intro angs spds ha hs hall
    rcases angs with _ | ⟨a, angs'⟩
    · simp at ha
    · rcases spds with _ | ⟨s, spds'⟩
      · simp at hs
      · simp only [allOk, entryOk, Bool.and_eq_true] at hall
        obtain ⟨⟨⟨hj, han⟩, hsp⟩, hrest⟩ := hall
        simp only [consume, hj, han, hsp, if_true, mkCalls]
        rw [ih angs' spds' (by simpa using ha) (by simpa using hs) hrest]

theorem consume_first_invalid (gid : Nat) :
    ∀ (pre : List Int) (preA : List Rat) (preS : List Int)
      (j : Int) (a : Rat) (s : Int)
      (rest : List Int) (restA : List Rat) (restS : List Int),
      pre.length = preA.length → pre.length = preS.length →
      allOk pre preA preS = true → entryOk j a s = false →
      consume gid (pre ++ j :: rest) (preA ++ a :: restA) (preS ++ s :: restS) =
        some (failMsg j a s, mkCalls gid pre preA preS) := by
  intro pre
  induction pre with
  | nil =>
    intro preA preS j a s rest restA restS ha hs _ hbad
    rcases preA with _ | ⟨a0, preA'⟩
    · rcases preS with _ | ⟨s0, preS'⟩
      · simp only [List.nil_append, consume, mkCalls, failMsg]
        by_cases hj : jointOk j
        · by_cases han : angleOk a
          · have hsp : speedOk s = false := by
              simpa only [entryOk, hj, han, Bool.true_and] using hbad
            simp [hj, han, hsp]
          · simp [hj, han]
        · simp [hj]
      · simp at hs
    · simp at ha
  | cons p pre' ih =>
    intro preA preS j a s rest restA restS ha hs hall hbad
    rcases preA with _ | ⟨a0, preA'⟩
    · simp at ha
    · rcases preS with _ | ⟨s0, preS'⟩
      · simp at hs
      · simp only [allOk, entryOk, Bool.and_eq_true] at hall
        obtain ⟨⟨⟨hj0, ha0⟩, hs0⟩, hrest⟩ := hall
        simp only [List.cons_append, consume, hj0, ha0, hs0, if_true, mkCalls,
          List.append_eq]
        rw [ih preA' preS' j a s rest restA restS (by simpa using ha)
          (by simpa using hs) hrest hbad]

theorem consume_total (gid : Nat) :
    ∀ (js : List Int) (angs : List Rat) (spds : List Int),
      js.length ≤ angs.length → js.length ≤ spds.length →
      ∃ p, consume gid js angs spds = some p ∧
        (p.1 = successMsg ∨ p.1 = wrongJointMsg ∨ p.1 = angleRangeMsg ∨
          p.1 = speedRangeMsg) := by
  intro js
  induction js with
  | nil =>
    intro angs spds _ _
    exact ⟨(successMsg, []), rfl, Or.inl rfl⟩
  | cons j rest ih =>
    intro angs spds ha hs
    rcases angs with _ | ⟨a, angs'⟩
    · simp at ha
    · rcases spds with _ | ⟨s, spds'⟩
      · simp at hs
      · by_cases hj : jointOk j
        · by_cases han : angleOk a
          · by_cases hsp : speedOk s
            · obtain ⟨⟨msg, calls⟩, hp, hmsg⟩ :=
                ih angs' spds' (by simpa using Nat.le_of_succ_le_succ (by simpa using ha))
                  (by simpa using Nat.le_of_succ_le_succ (by simpa using hs))
              refine ⟨(msg, ⟨gid, j, a, s⟩ :: calls), ?_, hmsg⟩
              simp only [consume, hj, han, hsp, if_true, hp]
            · exact ⟨(speedRangeMsg, []), by simp only [consume, hj, han, hsp,
                if_true, Bool.false_eq_true, if_false], Or.inr (Or.inr (Or.inr rfl))⟩
          · exact ⟨(angleRangeMsg, []), by simp only [consume, hj, han, if_true,
              Bool.false_eq_true, if_false], Or.inr (Or.inr (Or.inl rfl))⟩
        · exact ⟨(wrongJointMsg, []), by simp only [consume, hj,
            Bool.false_eq_true, if_false], Or.inr (Or.inl rfl)⟩

/-! ### Telemetry tick (`joint_state_callback`, lines 55-101)

The callback performs three Device Link reads in program order —
`self.mc.get_angles(1)` (line 72), `self.mc.get_angles(2)` (line 87),
`self.mc.get_angle(3, 1)` (line 97) — and publishes one `MyBuddy280Angles`
message (line 101).  The callback contains no `try`/`except` and no length
check, so a read that raises aborts the callback before the publish, and a
read that returns a wrong-length list flows straight into the published
`position` field.  Reads are modelled as inputs (the values the Device Link
would return this tick, or the fact that the call raises); the result is the
trace of reads actually issued, paired with the published message (`none`
when the exception escapes before line 101).  Timestamps and the `float(.)`
coercions (identity on `Rat`) are omitted. -/

/-- One Device Link read call issued by the telemetry tick. -/
inductive ReadCall where
  | getAngles (group : Nat)
  | getAngle (group : Nat) (joint : Nat)
deriving DecidableEq, Repr

/-- Outcome of a `get_angles` call: the returned list, or a raised
exception. -/
inductive ReadResult where
  | ok (values : List Rat)
  | exn
deriving DecidableEq, Repr

/-- One sub-record of the `MyBuddy280Angles` message (a `JointState`-like
record with name, position, velocity and effort arrays). -/
structure JointGroupMsg where
  name : List String
  position : List Rat
  velocity : List Rat
  effort : List Rat
deriving DecidableEq, Repr

/-- The `MyBuddy280Angles` message assembled by the tick. -/
structure AnglesMsg where
  left_arm : JointGroupMsg
  right_arm : JointGroupMsg
  waist : JointGroupMsg
deriving DecidableEq, Repr

/-- `joint_state_callback` (lines 55-101): the three reads in program order,
each aborting the callback if it raises, then one publish. -/
def joint_state_callback (leftRead rightRead : ReadResult)
    (waistRead : Option Rat) : List ReadCall × Option AnglesMsg :=
  match leftRead with
  | .exn => ([ReadCall.getAngles 1], none)
  | .ok leftVals =>
    match rightRead with
    | .exn => ([ReadCall.getAngles 1, ReadCall.getAngles 2], none)
    | .ok rightVals =>
      match waistRead with
      | none => ([ReadCall.getAngles 1, ReadCall.getAngles 2,
                  ReadCall.getAngle 3 1], none)
      | some w =>
        ([ReadCall.getAngles 1, ReadCall.getAngles 2, ReadCall.getAngle 3 1],
         some
           { left_arm := { name := ["LJ1", "LJ2", "LJ3", "LJ4", "LJ5", "LJ6"],
                           position := leftVals, velocity := [], effort := [] },
             right_arm := { name := ["RJ1", "RJ2", "RJ3", "RJ4", "RJ5", "RJ6"],
                            position := rightVals, velocity := [], effort := [] },
             waist := { name := ["W"], position := [w], velocity := [],
                        effort := [] } })

/-! ### Startup (`MyBuddy280ROSWrapper.__init__`, lines 22-53)

The constructor wraps `MyBuddy(SERIAL_PORT, BAUD_RATE)` in
`try ... except serial.serialutil.SerialException`.  The handler logs and then
evaluates `self.executor.remove_node(self)` (line 34).  `Node.executor` is an
rclpy property that returns the executor the node was added to, or `None`
before any `add_node` — and during `__init__` the node has not been added to
any executor, so the handler dereferences `None` and raises
`AttributeError`; `rclpy.shutdown()` (line 35) is never reached and
`__init__` aborts before the registration block of lines 38-53.  Had the
handler completed, control would fall through to those registrations (there
is no `return`/`raise` in the handler), which the model keeps as the
fall-through branch. -/

/-- A registration performed by the constructor after the `try` block:
the joint-state publisher (line 38), its 0.5 s timer (line 43), and the
send-angles service (line 49). -/
inductive InitStep where
  | publisher
  | timer
  | service
deriving DecidableEq, Repr

/-- `self.executor.remove_node(self)` (line 34): raises `AttributeError`
when `self.executor` is `None`. -/
def removeNodeFromExecutor : Option Unit → Except String Unit
  | none => Except.error "AttributeError"
  | some _ => Except.ok ()

/-- `MyBuddy280ROSWrapper.__init__` as a function of whether opening the
serial port succeeds.  Returns the registrations performed, or the exception
that escaped the constructor.  `none` passed to `removeNodeFromExecutor`
records that `self.executor` is `None` during `__init__`. -/
def wrapperInit (serialOk : Bool) : Except String (List InitStep) :=
  match (if serialOk then Except.ok ()
         else removeNodeFromExecutor none : Except String Unit) with
  | Except.error e => Except.error e
  | Except.ok _ =>
      Except.ok [InitStep.publisher, InitStep.timer, InitStep.service]

/-! ### Bridge lemmas: the service callback per resolved part code -/

theorem callback_left (js : List Int) (angs : List Rat) (spds : List Int) :
    send_joint_angles_callback ⟨"L", js, angs, spds⟩ = consume 1 js angs spds := by
  unfold send_joint_angles_callback
  rw [if_pos rfl, dispatchLoop_eq_consume, List.drop_zero, List.drop_zero]

theorem callback_right (js : List Int) (angs : List Rat) (spds : List Int) :
    send_joint_angles_callback ⟨"R", js, angs, spds⟩ = consume 2 js angs spds := by
  unfold send_joint_angles_callback
  rw [if_neg (by simp), if_pos rfl, dispatchLoop_eq_consume, List.drop_zero,
    List.drop_zero]

theorem callback_waist (js : List Int) (angs : List Rat) (spds : List Int) :
    send_joint_angles_callback ⟨"W", js, angs, spds⟩ = consume 3 js angs spds := by
  unfold send_joint_angles_callback
  rw [if_neg (by simp), if_neg (by simp), if_pos rfl,
    dispatchLoop_eq_consume, List.drop_zero, List.drop_zero]

/-! ### Claims -/

/-- C1: for a Dispatch request with part code in {L, R, W} and parallel entry
sequences whose first invalid entry is the (k+1)-st — here the prefix `pre`
(of length k) is entirely valid and the entry `(j, a, s)` fails a check —
exactly k `send_angle` calls are issued, one per preceding entry in request
order, nothing at or after the failing entry is sent (the result does not
depend on `rest`), and the returned message is the one for the first failing
check of the invalid entry, checks applied in the order joint number, angle,
speed (`failMsg`). -/
theorem C1_first_invalid_entry (pid : String) (gid : Nat)
    (hpid : (pid = "L" ∧ gid = 1) ∨ (pid = "R" ∧ gid = 2) ∨ (pid = "W" ∧ gid = 3))
    (pre : List Int) (preA : List Rat) (preS : List Int)
    (j : Int) (a : Rat) (s : Int)
    (rest : List Int) (restA : List Rat) (restS : List Int)
    (hlenA : pre.length = preA.length) (hlenS : pre.length = preS.length)
    (hvalid : allOk pre preA preS = true) (hbad : entryOk j a s = false) :
    send_joint_angles_callback
        ⟨pid, pre ++ j :: rest, preA ++ a :: restA, preS ++ s :: restS⟩ =
      some (failMsg j a s, mkCalls gid pre preA preS) ∧
    (mkCalls gid pre preA preS).length = pre.length := by
  refine ⟨?_, mkCalls_length gid pre preA preS hlenA hlenS⟩
  have key := consume_first_invalid gid pre preA preS j a s rest restA restS
    hlenA hlenS hvalid hbad
  rcases hpid with ⟨hp, hg⟩ | ⟨hp, hg⟩ | ⟨hp, hg⟩ <;> subst hp <;> subst hg
  · rw [callback_left]; exact key
  · rw [callback_right]; exact key
  · rw [callback_waist]; exact key

/-- C1 witness: part L, first entry (1, 10, 50) valid, second entry has
joint number 7: exactly one `send_angle(1, 1, 10, 50)` call and the
wrong-joint message. -/
theorem C1_first_invalid_entry_witness :
    send_joint_angles_callback ⟨"L", [1, 7], [10, 0], [50, 50]⟩ =
      some (wrongJointMsg, [⟨1, 1, 10, 50⟩]) ∧
    ([⟨1, 1, 10, 50⟩] : List SendAngleCall).length = 1 :=
  C1_first_invalid_entry "L" 1 (Or.inl ⟨rfl, rfl⟩) [1] [10] [50] 7 0 50 [] [] []
    rfl rfl (by decide) (by decide)

/-- C2: for a Dispatch request with part code in {L, R, W} and parallel
entry sequences that are all valid, exactly N `send_angle` calls occur, in
request order with the resolved group id and each entry's joint number,
angle and speed (`mkCalls`), and the result message is
"Success: Angles sent". -/
theorem C2_all_valid_batch (pid : String) (gid : Nat)
    (hpid : (pid = "L" ∧ gid = 1) ∨ (pid = "R" ∧ gid = 2) ∨ (pid = "W" ∧ gid = 3))
    (js : List Int) (angs : List Rat) (spds : List Int)
    (hlenA : js.length = angs.length) (hlenS : js.length = spds.length)
    (hvalid : allOk js angs spds = true) :
    send_joint_angles_callback ⟨pid, js, angs, spds⟩ =
      some (successMsg, mkCalls gid js angs spds) ∧
    (mkCalls gid js angs spds).length = js.length := by
  refine ⟨?_, mkCalls_length gid js angs spds hlenA hlenS⟩
  have key := consume_all_valid gid js angs spds hlenA hlenS hvalid
  rcases hpid with ⟨hp, hg⟩ | ⟨hp, hg⟩ | ⟨hp, hg⟩ <;> subst hp <;> subst hg
  · rw [callback_left]; exact key
  · rw [callback_right]; exact key
  · rw [callback_waist]; exact key

/-- C2 witness: part R, two valid entries, exactly two calls in order and
the success message. -/
theorem C2_all_valid_batch_witness :
    send_joint_angles_callback ⟨"R", [1, 2], [10, -10], [50, 100]⟩ =
      some (successMsg, [⟨2, 1, 10, 50⟩, ⟨2, 2, -10, 100⟩]) ∧
    ([⟨2, 1, 10, 50⟩, ⟨2, 2, -10, 100⟩] : List SendAngleCall).length = 2 :=
  C2_all_valid_batch "R" 2 (Or.inr (Or.inl ⟨rfl, rfl⟩)) [1, 2] [10, -10]
    [50, 100] rfl rfl (by decide)

/-- C3: for every Dispatch request whose part code is not L, R or W, the
result is exactly the wrong-ID message and zero Device Link calls are made,
whatever the entry sequences hold. -/
theorem C3_wrong_part_id (req : SendAnglesRequest)
    (h : ¬req.part_id = "L" ∧ ¬req.part_id = "R" ∧ ¬req.part_id = "W") :
    send_joint_angles_callback req = some (wrongIdMsg, []) := by
  obtain ⟨h1, h2, h3⟩ := h
  unfold send_joint_angles_callback
  rw [if_neg h1, if_neg h2, if_neg h3]

/-- C3 witness: part code "X" yields the wrong-ID message and no calls. -/
theorem C3_wrong_part_id_witness :
    send_joint_angles_callback ⟨"X", [1], [10], [50]⟩ = some (wrongIdMsg, []) :=
  C3_wrong_part_id ⟨"X", [1], [10], [50]⟩ (by decide)

/-- C4: if opening the serial port fails, the constructor's `except` handler
evaluates `self.executor.remove_node(self)` while `self.executor` is still
`None`, so the handler itself raises `AttributeError` and `__init__` aborts
before the registration block: the publisher, the timer and the service are
never registered, and the exception propagates out of `main` (which catches
only `KeyboardInterrupt`, and only around `spin`), terminating the
process. -/
theorem C4_startup_failure_fatal :
    wrapperInit false = Except.error "AttributeError" := rfl

/-- C5 counterexample: a `get_angles(1)` read that returns 5 values — a
wrong-length result, since the left arm has 6 joints — does NOT suppress the
tick's publish: the callback has no length check, so the message is
published with the 5-element position list. -/
theorem C5_counterexample :
    (joint_state_callback (ReadResult.ok [0, 0, 0, 0, 0])
        (ReadResult.ok [0, 0, 0, 0, 0, 0]) (some 0)).2.isSome = true ∧
    ([(0 : Rat), 0, 0, 0, 0].length = 5 ∧
      (joint_state_callback (ReadResult.ok [0, 0, 0, 0, 0])
        (ReadResult.ok [0, 0, 0, 0, 0, 0]) (some 0)).2 =
        some
          { left_arm := { name := ["LJ1", "LJ2", "LJ3", "LJ4", "LJ5", "LJ6"],
                          position := [0, 0, 0, 0, 0], velocity := [],
                          effort := [] },
            right_arm := { name := ["RJ1", "RJ2", "RJ3", "RJ4", "RJ5", "RJ6"],
                           position := [0, 0, 0, 0, 0, 0], velocity := [],
                           effort := [] },
            waist := { name := ["W"], position := [0], velocity := [],
                       effort := [] } }) :=
  ⟨rfl, rfl, rfl⟩

/-- C5 (amended): a telemetry tick in which a Device Link read raises an
exception publishes no message — the exception aborts the callback before
the publish on line 101, with no retry within the tick.  (A wrong-length
read result, by contrast, is not detected and does not suppress the
publish: see the counterexample.) -/
theorem C5_read_exn_suppresses_publish (leftRead rightRead : ReadResult)
    (waistRead : Option Rat)
    (h : leftRead = ReadResult.exn ∨ rightRead = ReadResult.exn ∨
      waistRead = none) :
    (joint_state_callback leftRead rightRead waistRead).2 = none := by
  rcases leftRead with lv | _
  · rcases rightRead with rv | _
    · rcases waistRead with _ | w
      · rfl
      · rcases h with h | h | h <;> simp at h
    · rfl
  · rfl

/-- C5 amended-claim witness: a raising left-arm read publishes nothing. -/
theorem C5_read_exn_suppresses_publish_witness :
    (joint_state_callback ReadResult.exn (ReadResult.ok [0, 0, 0, 0, 0, 0])
      (some 0)).2 = none :=
  C5_read_exn_suppresses_publish ReadResult.exn
    (ReadResult.ok [0, 0, 0, 0, 0, 0]) (some 0) (Or.inl rfl)

/-- C6: a successful telemetry tick — each of the three Device Link reads
returns, the two `get_angles` reads with 6 values — issues exactly the three
reads `get_angles(1)`, `get_angles(2)`, `get_angle(3, 1)` and publishes
exactly one message whose left/right/waist position arrays are the values of
those reads, of lengths 6, 6 and 1, with every velocity and effort field
empty. -/
theorem C6_successful_tick (leftVals rightVals : List Rat) (w : Rat)
    (hL : leftVals.length = 6) (hR : rightVals.length = 6) :
    ∃ msg : AnglesMsg,
      joint_state_callback (ReadResult.ok leftVals) (ReadResult.ok rightVals)
          (some w) =
        ([ReadCall.getAngles 1, ReadCall.getAngles 2, ReadCall.getAngle 3 1],
          some msg) ∧
      msg.left_arm.position = leftVals ∧ msg.right_arm.position = rightVals ∧
      msg.waist.position = [w] ∧
      msg.left_arm.position.length = 6 ∧ msg.right_arm.position.length = 6 ∧
      msg.waist.position.length = 1 ∧
      msg.left_arm.velocity = [] ∧ msg.left_arm.effort = [] ∧
      msg.right_arm.velocity = [] ∧ msg.right_arm.effort = [] ∧
      msg.waist.velocity = [] ∧ msg.waist.effort = [] := by
  refine ⟨_, rfl, rfl, rfl, rfl, hL, hR, rfl, rfl, rfl, rfl, rfl, rfl, rfl⟩

/-- C6 witness: a tick with all-zero reads of the right lengths. -/
theorem C6_successful_tick_witness :
    ∃ msg : AnglesMsg,
      joint_state_callback (ReadResult.ok [0, 0, 0, 0, 0, 0])
          (ReadResult.ok [0, 0, 0, 0, 0, 0]) (some 0) =
        ([ReadCall.getAngles 1, ReadCall.getAngles 2, ReadCall.getAngle 3 1],
          some msg) ∧
      msg.left_arm.position = [0, 0, 0, 0, 0, 0] ∧
      msg.right_arm.position = [0, 0, 0, 0, 0, 0] ∧
      msg.waist.position = [0] ∧
      msg.left_arm.position.length = 6 ∧ msg.right_arm.position.length = 6 ∧
      msg.waist.position.length = 1 ∧
      msg.left_arm.velocity = [] ∧ msg.left_arm.effort = [] ∧
      msg.right_arm.velocity = [] ∧ msg.right_arm.effort = [] ∧
      msg.waist.velocity = [] ∧ msg.waist.effort = [] :=
  C6_successful_tick [0, 0, 0, 0, 0, 0] [0, 0, 0, 0, 0, 0] 0 rfl rfl

/-- C7: for every Dispatch request with parallel entry sequences, the
callback terminates with exactly one result message, the message is one of
the five fixed strings (wrong-ID, wrong-joint, angle-range, speed-range,
success), and it is never empty. -/
theorem C7_message_taxonomy (req : SendAnglesRequest)
    (hlenA : req.angle.length = req.joint_number.length)
    (hlenS : req.speed.length = req.joint_number.length) :
    ∃ p : String × List SendAngleCall,
      send_joint_angles_callback req = some p ∧
      (p.1 = wrongIdMsg ∨ p.1 = wrongJointMsg ∨ p.1 = angleRangeMsg ∨
        p.1 = speedRangeMsg ∨ p.1 = successMsg) ∧
      0 < p.1.length := by
  rcases req with ⟨pid, js, angs, spds⟩
  simp only at hlenA hlenS
  have hmsg : ∀ gid, ∃ p : String × List SendAngleCall,
      consume gid js angs spds = some p ∧
      (p.1 = wrongIdMsg ∨ p.1 = wrongJointMsg ∨ p.1 = angleRangeMsg ∨
        p.1 = speedRangeMsg ∨ p.1 = successMsg) ∧ 0 < p.1.length := by
    intro gid
    obtain ⟨p, hp, hk⟩ := consume_total gid js angs spds hlenA.ge hlenS.ge
    refine ⟨p, hp, ?_, ?_⟩
    · rcases hk with h | h | h | h
      · exact Or.inr (Or.inr (Or.inr (Or.inr h)))
      · exact Or.inr (Or.inl h)
      · exact Or.inr (Or.inr (Or.inl h))
      · exact Or.inr (Or.inr (Or.inr (Or.inl h)))
    · rcases hk with h | h | h | h <;> rw [h] <;> decide
  by_cases h1 : pid = "L"
  · subst h1; rw [callback_left]; exact hmsg 1
  · by_cases h2 : pid = "R"
    · subst h2; rw [callback_right]; exact hmsg 2
    · by_cases h3 : pid = "W"
      · subst h3; rw [callback_waist]; exact hmsg 3
      · refine ⟨(wrongIdMsg, []), ?_, Or.inl rfl, by decide⟩
        unfold send_joint_angles_callback
        rw [if_neg h1, if_neg h2, if_neg h3]

/-- C7 witness: an unknown part code with empty (parallel) arrays. -/
theorem C7_message_taxonomy_witness :
    ∃ p : String × List SendAngleCall,
      send_joint_angles_callback ⟨"Q", [], [], []⟩ = some p ∧
      (p.1 = wrongIdMsg ∨ p.1 = wrongJointMsg ∨ p.1 = angleRangeMsg ∨
        p.1 = speedRangeMsg ∨ p.1 = successMsg) ∧
      0 < p.1.length :=
  C7_message_taxonomy ⟨"Q", [], [], []⟩ rfl rfl

/-- C8: whenever the `angle` and `speed` arrays are at least as long as
`joint_number`, every index access `angle[i]` / `speed[i]` in the loop is in
bounds and the callback returns normally (no `IndexError` escapes): the
cursor `i` equals the iteration index on every pass, because an entry that
fails a check returns immediately (`dispatchLoop_eq_consume` is the loop
invariant in list form). -/
theorem C8_no_index_error (req : SendAnglesRequest)
    (hlenA : req.joint_number.length ≤ req.angle.length)
    (hlenS : req.joint_number.length ≤ req.speed.length) :
    (send_joint_angles_callback req).isSome = true := by
  rcases req with ⟨pid, js, angs, spds⟩
  simp only at hlenA hlenS
  have hsome : ∀ gid, (consume gid js angs spds).isSome = true := by
    intro gid
    obtain ⟨p, hp, -⟩ := consume_total gid js angs spds hlenA hlenS
    rw [hp]; rfl
  by_cases h1 : pid = "L"
  · subst h1; rw [callback_left]; exact hsome 1
  · by_cases h2 : pid = "R"
    · subst h2; rw [callback_right]; exact hsome 2
    · by_cases h3 : pid = "W"
      · subst h3; rw [callback_waist]; exact hsome 3
      · unfold send_joint_angles_callback
        rw [if_neg h1, if_neg h2, if_neg h3]; rfl

/-- C8 witness: a one-entry request with arrays of equal length. -/
theorem C8_no_index_error_witness :
    (send_joint_angles_callback ⟨"L", [1], [10], [50]⟩).isSome = true :=
  C8_no_index_error ⟨"L", [1], [10], [50]⟩ (by decide) (by decide)

/-- C9: the dispatcher applies the joint-number range {1..6} uniformly,
including to the waist group: for part code W and a single entry whose joint
number is in {2..6} with valid angle and speed, it issues
`send_angle(3, joint_number, angle, speed)` and returns success, although
the waist has exactly one joint. -/
theorem C9_waist_accepts_any_joint (j : Int) (a : Rat) (s : Int)
    (hj : 2 ≤ j ∧ j ≤ 6) (ha : -175 ≤ a ∧ a ≤ 175) (hs : 1 ≤ s ∧ s ≤ 100) :
    send_joint_angles_callback ⟨"W", [j], [a], [s]⟩ =
      some (successMsg, [⟨3, j, a, s⟩]) := by
  have hjok : jointOk j = true := by
    simp only [jointOk, Bool.or_eq_true, beq_iff_eq]
    omega
  have haok : angleOk a = true := by
    simp only [angleOk, Bool.and_eq_true, decide_eq_true_eq]
    exact ha
  have hsok : speedOk s = true := by
    simp only [speedOk, Bool.and_eq_true, decide_eq_true_eq]
    exact hs
  rw [callback_waist]
  simp only [consume, hjok, haok, hsok, if_true]

/-- C9 witness: waist joint number 2 is accepted and forwarded. -/
theorem C9_waist_accepts_any_joint_witness :
    send_joint_angles_callback ⟨"W", [2], [5], [10]⟩ =
      some (successMsg, [⟨3, 2, 5, 10⟩]) :=
  C9_waist_accepts_any_joint 2 5 10 (by decide) (by decide) (by decide)

/-- C10: for a part code in {L, R, W} and an empty `joint_number` array, the
loop body never runs: the result is the success message and zero
`send_angle` calls, whatever the `angle` and `speed` arrays hold. -/
theorem C10_empty_batch_succeeds (pid : String) (angs : List Rat)
    (spds : List Int) (h : pid = "L" ∨ pid = "R" ∨ pid = "W") :
    send_joint_angles_callback ⟨pid, [], angs, spds⟩ =
      some (successMsg, []) := by
  rcases h with h | h | h <;> subst h
  · rw [callback_left]; rfl
  · rw [callback_right]; rfl
  · rw [callback_waist]; rfl

/-- C10 witness: part W with empty joints but a non-empty angle array. -/
theorem C10_empty_batch_succeeds_witness :
    send_joint_angles_callback ⟨"W", [], [1], []⟩ = some (successMsg, []) :=
  C10_empty_batch_succeeds "W" [1] [] (Or.inr (Or.inr rfl))

end MyBuddy280
